import Mathlib

/-!
Shallow embedding of the starknet-devnet execution engine, covering the
transaction admission pipeline (`add_invoke_transcation_v1`,
`add_deploy_account_transaction`), the class query functions
(`get_class_impls.rs`), the fixed on-chain constants (`constants.rs`),
the transaction data model (`rpc/transactions.rs`,
`rpc/transactions/deploy_transaction.rs`) and the stubbed
`get_account_balance` HTTP endpoint.

Machine integers are modelled as `Nat`; field elements (felts) are `Nat`
values.  The external executor crate (starknet_in_rust) is treated as an
external collaborator: its `execute` entry points are universally
quantified function parameters, and its hashing / address-derivation
surface is modelled from the specification where its code is not part of
this repository.
-/

namespace Devnet

/-- Field element of the target curve; addresses, hashes, nonces and
storage words are all felts with distinct newtypes in the source. -/
abbrev Felt := Nat

abbrev TransactionHash := Felt
abbrev ClassHash := Felt
abbrev BlockHash := Felt

/-- Contract address: a felt constrained to be below `2 ^ 251`. -/
abbrev ContractAddress := Felt

/-- Bound below which a felt is a valid contract address. -/
def ADDR_BOUND : Nat := 2 ^ 251

/-- Fee newtype; the source wraps a `u128` as `Fee(u128)` and accesses the
raw value as `.0` (here the field `val`). -/
structure Fee where
  val : Nat
  deriving Repr, DecidableEq

/-! ## Hex string constants (`crates/starknet/src/constants.rs`) -/

def CAIRO_0_ACCOUNT_CONTRACT_HASH : String :=
  "0x4d07e40e93398ed3c76981e72dd1fd22557a78ce36c0515f679e27f0bb5bc5f"

def CAIRO_1_ACCOUNT_CONTRACT_HASH : String :=
  "0x2b513521d389c0477b3a9a90a1ff4822bcd957a9c8ba0dfc49918b59a19cf8a"

def ERC20_CONTRACT_CLASS_HASH : String :=
  "0x6A22BF63C7BC07EFFA39A25DFBD21523D211DB0100A0AFD054D172B81840EAF"

def ERC20_CONTRACT_ADDRESS : String :=
  "0x49D36570D4E46F48E99674BD3FCC84644DDD6B96F7C741B1562B82F9E004DC7"

def UDC_CONTRACT_CLASS_HASH : String :=
  "0x7B3E05F48F0C69E4A65CE5E076A66271A527AFF2C34CE1083EC6E1526997A69"

def UDC_CONTRACT_ADDRESS : String :=
  "0x41A78E741E5AF2FEC34B695679BC6891742439F7AFB8484ECD7766661AD02BF"

def CHARGEABLE_ACCOUNT_PUBLIC_KEY : String :=
  "0x4C37AB4F0994879337BFD4EAD0800776DB57DA382B8ED8EFAA478C5D3B942A4"

def CHARGEABLE_ACCOUNT_PRIVATE_KEY : String := "0x5FB2959E3011A873A7160F5BB32B0ECE"

def CHARGEABLE_ACCOUNT_ADDRESS : String :=
  "0x1CAF2DF5ED5DDE1AE3FAEF4ACD72522AC3CB16E23F6DC4C7F9FAED67124C511"

def DEVNET_DEFAULT_SEED : Nat := 123
def DEVNET_DEFAULT_TOTAL_ACCOUNTS : Nat := 10
def DEVNET_DEFAULT_INITIAL_BALANCE : Nat := 1000000000000000000000
def DEVNET_DEFAULT_GAS_PRICE : Nat := 100000000000
def DEVNET_DEFAULT_PORT : Nat := 5050
def DEVNET_DEFAULT_TIMEOUT : Nat := 120
def SUPPORTED_TX_VERSION : Nat := 1

/-- Value of a single hexadecimal character; mirrors hex parsing of
prefixed hex strings into felts (`Felt::from_prefixed_hex_str`). -/
def hexDigitVal (c : Char) : Nat :=
  if 97 ≤ c.toNat then c.toNat - 87
  else if 65 ≤ c.toNat then c.toNat - 55
  else c.toNat - 48

/-- Accumulator pass over hex characters, most significant first. -/
def hexCharsToNat : List Char → Nat → Nat
  | [], acc => acc
  | c :: cs, acc => hexCharsToNat cs (acc * 16 + hexDigitVal c)

/-- Numeric felt value of a `0x`-prefixed hexadecimal string. -/
def hexToNat (s : String) : Nat :=
  hexCharsToNat (s.data.drop 2) 0

/-! ## Chain id (`starknet_types::chain_id::ChainId`; the repository uses
`ChainId::TestNet` as default).  Modelled from the spec: the chain id is a
domain-separator felt mixed into all transaction hashes; the felt values
are the big-endian byte encodings of the network names. -/

inductive ChainId
  | MainNet
  | TestNet
  deriving Repr, DecidableEq

/-- Modelled from the spec: felt value of the chain-id domain separator
(the encoded network name). -/
def ChainId.to_felt : ChainId → Felt
  | .MainNet => 0x534e5f4d41494e
  | .TestNet => 0x534e5f474f45524c49

def DEVNET_DEFAULT_CHAIN_ID : ChainId := ChainId.TestNet

/-! ## Errors (`crates/starknet/src/error.rs` and the executor's error
types; only the variants exercised by the embedded code are carried). -/

/-- Execution-layer transaction errors (`TransactionError` of the external
executor crate); `FeeError` carries the human-readable message built at the
call sites in `add_invoke_transaction.rs` / `add_deploy_account_transaction.rs`. -/
inductive TransactionError
  | FeeError (msg : String)
  | InvalidTransactionNonce (expected actual : Felt)
  | ExecutionFailure (msg : String)
  deriving Repr, DecidableEq

/-- State-layer errors; `MissingClassHash` is raised by
`add_deploy_account_transaction` when the class hash is undeclared. -/
inductive StateError
  | MissingClassHash
  | ContractNotFound (address : ContractAddress)
  | ClassHashNotFound (hash : ClassHash)
  deriving Repr, DecidableEq

/-- Devnet error wrapper (`crate::error::Error`); `ConversionError` stands
for the failure of converting an out-of-range felt into a
`ContractAddress` (the `try_into` in the deploy-account pipeline). -/
inductive Error
  | TransactionError (e : TransactionError)
  | StateError (e : StateError)
  | ConversionError (msg : String)
  deriving Repr, DecidableEq

/-- Result type used across the devnet crate (`DevnetResult`). -/
abbrev DevnetResult (α : Type) := Except Error α

/-! ## Transaction data model (`crates/types/src/rpc/transactions.rs`) -/

inductive TransactionType
  | Declare
  | Deploy
  | DeployAccount
  | Invoke
  | L1Handler
  deriving Repr, DecidableEq

inductive TransactionStatus
  | AcceptedOnL2
  | Rejected
  deriving Repr, DecidableEq

/-- Emitted event (`starknet_types::emitted_event::Event`); carried opaquely
by receipts. -/
structure Event where
  from_address : ContractAddress
  keys : List Felt
  data : List Felt
  deriving Repr, DecidableEq

/-- L2-to-L1 message (`MessageToL1`). -/
structure MessageToL1 where
  from_address : ContractAddress
  to_address : Felt
  payload : List Felt
  deriving Repr, DecidableEq

/-- Common broadcast fields (`BroadcastedTransactionCommon`). -/
structure BroadcastedTransactionCommon where
  max_fee : Fee
  version : Felt
  signature : List Felt
  nonce : Felt
  deriving Repr, DecidableEq

/-! ## Transaction variants.  `InvokeTransactionV0`, `L1HandlerTransaction`
and `DeployTransaction` are embedded from `rpc/transactions.rs` /
`rpc/transactions/deploy_transaction.rs`; `DeclareTransactionV0V1`,
`DeclareTransactionV2`, `DeployAccountTransaction` and
`InvokeTransactionV1` live in sibling modules that are not part of the
source tree, so their field lists are modelled from the spec (common
fields `max_fee`, `version`, `signature`, `nonce`, plus the
`transaction_hash` stamped after hashing) and from how
`broadcasted_declare_transaction_v2.rs` constructs `DeclareTransactionV2`. -/

/-- Modelled from the spec: Declare v0/v1 transaction body
(`declare_transaction_v0v1.rs` is not in the source tree). -/
structure DeclareTransactionV0V1 where
  class_hash : ClassHash
  sender_address : ContractAddress
  nonce : Felt
  max_fee : Fee
  version : Felt
  transaction_hash : TransactionHash
  signature : List Felt
  deriving Repr, DecidableEq

def DeclareTransactionV0V1.max_fee' (tx : DeclareTransactionV0V1) : Fee := tx.max_fee

def DeclareTransactionV0V1.get_transaction_hash (tx : DeclareTransactionV0V1) :
    TransactionHash := tx.transaction_hash

/-- Declare v2 transaction body; field list read off the constructor in
`broadcasted_declare_transaction_v2.rs` (`compile_declare`). -/
structure DeclareTransactionV2 where
  class_hash : ClassHash
  compiled_class_hash : ClassHash
  sender_address : ContractAddress
  nonce : Felt
  max_fee : Fee
  version : Felt
  transaction_hash : TransactionHash
  signature : List Felt
  deriving Repr, DecidableEq

def DeclareTransactionV2.max_fee' (tx : DeclareTransactionV2) : Fee := tx.max_fee

def DeclareTransactionV2.get_transaction_hash (tx : DeclareTransactionV2) :
    TransactionHash := tx.transaction_hash

/-- Modelled from the spec: deploy-account transaction body
(`deploy_account_transaction.rs` is not in the source tree). -/
structure DeployAccountTransaction where
  transaction_hash : TransactionHash
  max_fee : Fee
  version : Felt
  signature : List Felt
  nonce : Felt
  class_hash : ClassHash
  contract_address_salt : Felt
  constructor_calldata : List Felt
  deriving Repr, DecidableEq

def DeployAccountTransaction.max_fee' (tx : DeployAccountTransaction) : Fee := tx.max_fee

def DeployAccountTransaction.get_transaction_hash (tx : DeployAccountTransaction) :
    TransactionHash := tx.transaction_hash

/-- Legacy deploy transaction (`deploy_transaction.rs`). -/
structure DeployTransaction where
  transaction_hash : TransactionHash
  version : Felt
  class_hash : ClassHash
  contract_address_salt : Felt
  constructor_calldata : List Felt
  deriving Repr, DecidableEq

/-- Fee accessor of the legacy deploy transaction: the source returns the
constant `Fee(0)` (`deploy_transaction.rs`, `impl DeployTransaction`). -/
def DeployTransaction.max_fee' (_ : DeployTransaction) : Fee := Fee.mk 0

def DeployTransaction.get_transaction_hash (tx : DeployTransaction) :
    TransactionHash := tx.transaction_hash

/-- Invoke v0 transaction (`InvokeTransactionV0` in `transactions.rs`). -/
structure InvokeTransactionV0 where
  transaction_hash : TransactionHash
  max_fee : Fee
  version : Felt
  signature : List Felt
  nonce : Felt
  contract_address : ContractAddress
  entry_point_selector : Felt
  calldata : List Felt
  deriving Repr, DecidableEq

def InvokeTransactionV0.get_max_fee (tx : InvokeTransactionV0) : Fee := tx.max_fee

def InvokeTransactionV0.get_transaction_hash (tx : InvokeTransactionV0) :
    TransactionHash := tx.transaction_hash

/-- Modelled from the spec: invoke v1 transaction body
(`invoke_transaction_v1.rs` is not in the source tree). -/
structure InvokeTransactionV1 where
  transaction_hash : TransactionHash
  max_fee : Fee
  version : Felt
  signature : List Felt
  nonce : Felt
  sender_address : ContractAddress
  calldata : List Felt
  deriving Repr, DecidableEq

def InvokeTransactionV1.max_fee' (tx : InvokeTransactionV1) : Fee := tx.max_fee

def InvokeTransactionV1.get_transaction_hash (tx : InvokeTransactionV1) :
    TransactionHash := tx.transaction_hash

/-- L1 handler transaction (`L1HandlerTransaction` in `transactions.rs`). -/
structure L1HandlerTransaction where
  transaction_hash : TransactionHash
  version : Felt
  nonce : Felt
  contract_address : ContractAddress
  entry_point_selector : Felt
  calldata : List Felt
  deriving Repr, DecidableEq

/-- Fee accessor of the L1 handler transaction: the source returns the
constant `Fee(0)` (`impl L1HandlerTransaction` in `transactions.rs`). -/
def L1HandlerTransaction.max_fee' (_ : L1HandlerTransaction) : Fee := Fee.mk 0

def L1HandlerTransaction.get_transaction_hash (tx : L1HandlerTransaction) :
    TransactionHash := tx.transaction_hash

/-- Declare transaction variant fan-out (`DeclareTransaction` enum). -/
inductive DeclareTransaction
  | Version0 (tx : DeclareTransactionV0V1)
  | Version1 (tx : DeclareTransactionV0V1)
  | Version2 (tx : DeclareTransactionV2)
  deriving Repr, DecidableEq

def DeclareTransaction.max_fee' : DeclareTransaction → Fee
  | .Version0 tx => tx.max_fee'
  | .Version1 tx => tx.max_fee'
  | .Version2 tx => tx.max_fee'

def DeclareTransaction.get_transaction_hash : DeclareTransaction → TransactionHash
  | .Version0 tx => tx.get_transaction_hash
  | .Version1 tx => tx.get_transaction_hash
  | .Version2 tx => tx.get_transaction_hash

/-- Invoke transaction variant fan-out (`InvokeTransaction` enum). -/
inductive InvokeTransaction
  | Version0 (tx : InvokeTransactionV0)
  | Version1 (tx : InvokeTransactionV1)
  deriving Repr, DecidableEq

def InvokeTransaction.max_fee' : InvokeTransaction → Fee
  | .Version0 tx => tx.get_max_fee
  | .Version1 tx => tx.max_fee'

def InvokeTransaction.get_transaction_hash : InvokeTransaction → TransactionHash
  | .Version0 tx => tx.get_transaction_hash
  | .Version1 tx => tx.get_transaction_hash

/-- Tagged union over all transaction kinds (`Transaction` enum in
`transactions.rs`). -/
inductive Transaction
  | Declare (tx : DeclareTransaction)
  | DeployAccount (tx : DeployAccountTransaction)
  | Deploy (tx : DeployTransaction)
  | Invoke (tx : InvokeTransaction)
  | L1Handler (tx : L1HandlerTransaction)
  deriving Repr, DecidableEq

/-- Kind tag of a transaction (`Transaction::get_type`). -/
def Transaction.get_type : Transaction → TransactionType
  | .Declare _ => .Declare
  | .DeployAccount _ => .DeployAccount
  | .Deploy _ => .Deploy
  | .Invoke _ => .Invoke
  | .L1Handler _ => .L1Handler

/-- Fee dispatch over all variants (`Transaction::max_fee`). -/
def Transaction.max_fee' : Transaction → Fee
  | .Declare tx => tx.max_fee'
  | .DeployAccount tx => tx.max_fee'
  | .Deploy tx => tx.max_fee'
  | .Invoke tx => tx.max_fee'
  | .L1Handler tx => tx.max_fee'

/-- Hash dispatch over all variants (`Transaction::get_transaction_hash`). -/
def Transaction.get_transaction_hash : Transaction → TransactionHash
  | .Declare tx => tx.get_transaction_hash
  | .L1Handler tx => tx.get_transaction_hash
  | .DeployAccount tx => tx.get_transaction_hash
  | .Invoke tx => tx.get_transaction_hash
  | .Deploy tx => tx.get_transaction_hash

/-- Transaction paired with its kind tag (`TransactionWithType`). -/
structure TransactionWithType where
  type : TransactionType
  transaction : Transaction
  deriving Repr, DecidableEq

def TransactionWithType.max_fee' (twt : TransactionWithType) : Fee :=
  twt.transaction.max_fee'

def TransactionWithType.get_transaction_hash (twt : TransactionWithType) :
    TransactionHash := twt.transaction.get_transaction_hash

/-- Receipt output (`TransactionOutput`). -/
structure TransactionOutput where
  actual_fee : Fee
  messages_sent : List MessageToL1
  events : List Event
  deriving Repr, DecidableEq

/-- Common receipt (`CommonTransactionReceipt`). -/
structure CommonTransactionReceipt where
  transaction_hash : TransactionHash
  type : TransactionType
  block_hash : BlockHash
  block_number : Nat
  output : TransactionOutput
  deriving Repr, DecidableEq

/-- Receipt construction (`TransactionWithType::create_common_receipt`):
the output takes `actual_fee` from the transaction's `max_fee` accessor,
an empty `messages_sent` list and the events passed in. -/
def TransactionWithType.create_common_receipt (twt : TransactionWithType)
    (transaction_events : List Event) (block_hash : BlockHash)
    (block_number : Nat) : CommonTransactionReceipt :=
  let output : TransactionOutput :=
    { actual_fee := twt.max_fee'
      messages_sent := []
      events := transaction_events }
  { type := twt.type
    transaction_hash := twt.get_transaction_hash
    block_hash := block_hash
    block_number := block_number
    output := output }

/-! ## Broadcast transaction bodies.  The invoke-v1 and deploy-account
broadcast modules are not in the source tree; their field lists are
modelled from the spec and from the constructor calls in the unit tests of
`add_invoke_transaction.rs` / `add_deploy_account_transaction.rs`. -/

/-- Modelled from the spec: broadcast invoke v1 body
(`broadcasted_invoke_transaction_v1.rs` is not in the source tree). -/
structure BroadcastedInvokeTransactionV1 where
  common : BroadcastedTransactionCommon
  sender_address : ContractAddress
  calldata : List Felt
  deriving Repr, DecidableEq

/-- Modelled from the spec: broadcast deploy-account body
(`broadcasted_deploy_account_transaction.rs` is not in the source tree). -/
structure BroadcastedDeployAccountTransaction where
  common : BroadcastedTransactionCommon
  contract_address_salt : Felt
  constructor_calldata : List Felt
  class_hash : ClassHash
  deriving Repr, DecidableEq

/-! ## Executor-side transaction forms and hashing.  The compiled forms
(`InvokeFunction`, `DeployAccount` of the external executor crate) and
their `hash_value` / `contract_address` methods live outside this
repository.  Modelled from the spec: the executor exposes a deterministic
`transaction_hash` over `(chain_id, version, sender_address or derived
address, calldata, nonce, max_fee, ...)`, collision-free across distinct
transaction bodies (spec property "Hash uniqueness"), and derives the
deploy-account contract address from `(class_hash, salt,
constructor_calldata, deployer = 0)` reduced below the address bound.
The encoding below realises that contract with an injective pairing of
the hashed fields, tagged by transaction kind. -/

/-- Injective encoding of a felt list into a single `Nat`. -/
def encodeFeltList : List Felt → Nat
  | [] => 0
  | x :: xs => Nat.pair x (encodeFeltList xs) + 1

/-- Modelled from the spec: compiled invoke function of the executor
(`starknet_in_rust::transaction::InvokeFunction`). -/
structure SirInvokeFunction where
  contract_address : ContractAddress
  calldata : List Felt
  max_fee : Nat
  version : Felt
  signature : List Felt
  nonce : Felt
  chain_id : Felt
  deriving Repr, DecidableEq

/-- Modelled from the spec: deterministic transaction hash of a compiled
invoke function, a pure function of the transaction fields and chain id. -/
def SirInvokeFunction.hash_value (tx : SirInvokeFunction) : TransactionHash :=
  Nat.pair 0 (Nat.pair tx.chain_id (Nat.pair tx.version (Nat.pair tx.contract_address
    (Nat.pair tx.nonce (Nat.pair tx.max_fee
      (Nat.pair (encodeFeltList tx.signature) (encodeFeltList tx.calldata)))))))

/-- Modelled from the spec: compiled deploy-account transaction of the
executor (`starknet_in_rust::transaction::DeployAccount`). -/
structure SirDeployAccountTransaction where
  class_hash : ClassHash
  contract_address_salt : Felt
  constructor_calldata : List Felt
  max_fee : Nat
  version : Felt
  signature : List Felt
  nonce : Felt
  chain_id : Felt
  deriving Repr, DecidableEq

/-- Modelled from the spec: deterministic transaction hash of a compiled
deploy-account transaction, tagged differently from invoke hashes. -/
def SirDeployAccountTransaction.hash_value (tx : SirDeployAccountTransaction) :
    TransactionHash :=
  Nat.pair 1 (Nat.pair tx.chain_id (Nat.pair tx.version (Nat.pair tx.class_hash
    (Nat.pair tx.contract_address_salt (Nat.pair tx.nonce (Nat.pair tx.max_fee
      (Nat.pair (encodeFeltList tx.signature)
        (encodeFeltList tx.constructor_calldata))))))))

/-- Modelled from the spec: contract address derived from `(class_hash,
salt, constructor_calldata, deployer = 0)`, reduced below the address
bound. -/
def SirDeployAccountTransaction.contract_address (tx : SirDeployAccountTransaction) :
    Felt :=
  (Nat.pair tx.class_hash (Nat.pair tx.contract_address_salt
    (Nat.pair (encodeFeltList tx.constructor_calldata) 0))) % ADDR_BOUND

/-- Conversion of a raw felt into a `ContractAddress` (the `try_into` in
the deploy-account pipeline); fails when the felt is out of range, per the
spec's address constraint. -/
def contractAddressTryFrom (x : Felt) : DevnetResult ContractAddress :=
  if x < ADDR_BOUND then Except.ok x
  else Except.error (Error.ConversionError "felt too big for contract address")

/-- Compilation of the broadcast invoke body into the executor form
(`create_sir_invoke_function`); copies the broadcast fields and fixes the
chain id. -/
def BroadcastedInvokeTransactionV1.create_sir_invoke_function
    (tx : BroadcastedInvokeTransactionV1) (chain_id : Felt) :
    DevnetResult SirInvokeFunction :=
  Except.ok
    { contract_address := tx.sender_address
      calldata := tx.calldata
      max_fee := tx.common.max_fee.val
      version := tx.common.version
      signature := tx.common.signature
      nonce := tx.common.nonce
      chain_id := chain_id }

/-- Compilation of the broadcast invoke body into the stored form
(`create_invoke_transaction`), stamping the derived hash. -/
def BroadcastedInvokeTransactionV1.create_invoke_transaction
    (tx : BroadcastedInvokeTransactionV1) (transaction_hash : TransactionHash) :
    InvokeTransactionV1 :=
  { transaction_hash := transaction_hash
    max_fee := tx.common.max_fee
    version := tx.common.version
    signature := tx.common.signature
    nonce := tx.common.nonce
    sender_address := tx.sender_address
    calldata := tx.calldata }

/-- Compilation of the broadcast deploy-account body into the executor
form (`compile_sir_deploy_account`). -/
def BroadcastedDeployAccountTransaction.compile_sir_deploy_account
    (tx : BroadcastedDeployAccountTransaction) (chain_id : Felt) :
    DevnetResult SirDeployAccountTransaction :=
  Except.ok
    { class_hash := tx.class_hash
      contract_address_salt := tx.contract_address_salt
      constructor_calldata := tx.constructor_calldata
      max_fee := tx.common.max_fee.val
      version := tx.common.version
      signature := tx.common.signature
      nonce := tx.common.nonce
      chain_id := chain_id }

/-- Compilation of the broadcast deploy-account body into the stored form
(`compile_deploy_account_transaction`), stamping the derived hash. -/
def BroadcastedDeployAccountTransaction.compile_deploy_account_transaction
    (tx : BroadcastedDeployAccountTransaction)
    (transaction_hash : TransactionHash) : DeployAccountTransaction :=
  { transaction_hash := transaction_hash
    max_fee := tx.common.max_fee
    version := tx.common.version
    signature := tx.common.signature
    nonce := tx.common.nonce
    class_hash := tx.class_hash
    contract_address_salt := tx.contract_address_salt
    constructor_calldata := tx.constructor_calldata }

/-! ## Engine state and the admission pipeline.  The pending world state
(the executor's cached state type) is kept abstract as a type parameter
`P`, and the per-transaction execution info as a type parameter `I`; both
belong to the external executor crate.  The executor's `execute` methods
are passed in as function parameters returning the mutated pending state
together with a success info or a transaction error. -/

/-- Block context handed to the executor (spec glossary: block number,
timestamp, sequencer address, gas price, fee-token address, chain id). -/
structure BlockContext where
  block_number : Nat
  block_timestamp : Nat
  sequencer_address : ContractAddress
  gas_price : Nat
  fee_token_address : ContractAddress
  chain_id : Felt
  deriving Repr, DecidableEq

/-- Engine configuration (`StarknetConfig`); only the chain id is read by
the embedded pipeline. -/
structure Config where
  chain_id : ChainId
  deriving Repr, DecidableEq

/-- Layered state wrapper (`starknet.state`): a committed layer (`state`),
a speculative layer (`pending_state`), and the declared-classes view read
by `is_contract_declared` (a `StateExtractor` method whose module is not
in the source tree; modelled from the spec as a predicate on class
hashes over the state). -/
structure StarknetWrappedState (P : Type) where
  state : P
  pending_state : P
  is_contract_declared : ClassHash → Bool

/-- Stored transaction (`StarknetTransaction`), as recorded in the
transaction index: the transaction with its status, an execution error for
rejected transactions and the execution info for accepted ones. -/
structure StarknetTransaction (I : Type) where
  status : TransactionStatus
  inner : TransactionWithType
  execution_error : Option TransactionError
  execution_info : Option I

/-- Constructor for rejected transactions
(`StarknetTransaction::create_rejected`): status `Rejected` with the
execution error attached. -/
def StarknetTransaction.create_rejected {I : Type}
    (transaction : TransactionWithType) (execution_error : TransactionError) :
    StarknetTransaction I :=
  { status := TransactionStatus.Rejected
    inner := transaction
    execution_error := some execution_error
    execution_info := none }

/-- Constructor for accepted transactions (modelled from the spec:
status `AcceptedOnL2` with the execution info attached). -/
def StarknetTransaction.create_successful {I : Type}
    (transaction : TransactionWithType) (execution_info : I) :
    StarknetTransaction I :=
  { status := TransactionStatus.AcceptedOnL2
    inner := transaction
    execution_error := none
    execution_info := some execution_info }

/-- Modelled from the spec: insertion-ordered transaction index
(`StarknetTransactions`), an association list from hash to stored
transaction with append-on-insert. -/
abbrev TransactionIndex (I : Type) := List (TransactionHash × StarknetTransaction I)

/-- Insertion into the transaction index (`StarknetTransactions::insert`). -/
def TransactionIndex.insert {I : Type} (m : TransactionIndex I)
    (hash : TransactionHash) (tx : StarknetTransaction I) : TransactionIndex I :=
  m ++ [(hash, tx)]

/-- Lookup by hash in the transaction index (first entry wins). -/
def TransactionIndex.lookup {I : Type} (m : TransactionIndex I)
    (hash : TransactionHash) : Option (StarknetTransaction I) :=
  match m with
  | [] => none
  | (h, tx) :: rest => if h = hash then some tx else TransactionIndex.lookup rest hash

/-- Modelled from the spec: the open pending block accumulating the hashes
of accepted transactions. -/
structure PendingBlock where
  transaction_hashes : List TransactionHash
  deriving Repr, DecidableEq

/-- Engine object (`Starknet`): layered state, transaction index,
configuration, block context and the open pending block. -/
structure Starknet (P I : Type) where
  state : StarknetWrappedState P
  transactions : TransactionIndex I
  config : Config
  block_context : BlockContext
  pending_block : PendingBlock

/-- Modelled from the spec: handling of a successfully executed
transaction (`Starknet::handle_successful_transaction`): append the hash
to the pending block and index the transaction as `AcceptedOnL2`. -/
def Starknet.handle_successful_transaction {P I : Type} (s : Starknet P I)
    (transaction_hash : TransactionHash) (transaction : TransactionWithType)
    (tx_info : I) : DevnetResult (Starknet P I) :=
  Except.ok
    { s with
      transactions := s.transactions.insert transaction_hash
        (StarknetTransaction.create_successful transaction tx_info)
      pending_block :=
        { s.pending_block with
          transaction_hashes :=
            s.pending_block.transaction_hashes ++ [transaction_hash] } }

/-- Initial gas supplied to invoke execution
(`starknet_in_rust::definitions::constants::INITIAL_GAS_COST`); the value
lives in the external executor crate and is irrelevant to the properties
below since the executor is universally quantified. -/
def INITIAL_GAS_COST : Nat := 100000000

/-- Admission pipeline for deploy-account transactions
(`add_deploy_account_transaction.rs`): zero-fee precheck, declared-class
precheck, compile, hash, derive address, snapshot `pending_state`,
execute; on success hand off to `handle_successful_transaction`, on
execution error index the transaction as rejected and restore
`pending_state` to the snapshot; either way return `Ok` with the hash and
the derived address. -/
def add_deploy_account_transaction {P I : Type}
    (execute : SirDeployAccountTransaction → P → BlockContext →
      P × Except TransactionError I)
    (starknet : Starknet P I)
    (broadcated_deploy_account_transaction : BroadcastedDeployAccountTransaction) :
    Starknet P I × DevnetResult (TransactionHash × ContractAddress) :=
  if broadcated_deploy_account_transaction.common.max_fee.val = 0 then
    (starknet, Except.error (Error.TransactionError (TransactionError.FeeError
      "For deploy account transaction, max fee cannot be 0")))
  else if ¬ (starknet.state.is_contract_declared
      broadcated_deploy_account_transaction.class_hash) then
    (starknet, Except.error (Error.StateError StateError.MissingClassHash))
  else
    match broadcated_deploy_account_transaction.compile_sir_deploy_account
        starknet.config.chain_id.to_felt with
    | Except.error e => (starknet, Except.error e)
    | Except.ok sir_deploy_account_transaction =>
      let transaction_hash := sir_deploy_account_transaction.hash_value
      let deploy_account_transaction :=
        broadcated_deploy_account_transaction.compile_deploy_account_transaction
          transaction_hash
      match contractAddressTryFrom sir_deploy_account_transaction.contract_address with
      | Except.error e => (starknet, Except.error e)
      | Except.ok address =>
        let transaction_with_type : TransactionWithType :=
          { type := TransactionType.DeployAccount
            transaction := Transaction.DeployAccount deploy_account_transaction }
        let state_before_txn := starknet.state.pending_state
        let execResult := execute sir_deploy_account_transaction
          starknet.state.pending_state starknet.block_context
        let starknet1 :=
          { starknet with state := { starknet.state with pending_state := execResult.1 } }
        match execResult.2 with
        | Except.ok tx_info =>
          match starknet1.handle_successful_transaction transaction_hash
              transaction_with_type tx_info with
          | Except.ok s2 => (s2, Except.ok (transaction_hash, address))
          | Except.error e => (starknet1, Except.error e)
        | Except.error tx_err =>
          let transaction_to_add :=
            StarknetTransaction.create_rejected transaction_with_type tx_err
          let starknet2 :=
            { starknet1 with
              transactions := starknet1.transactions.insert transaction_hash
                transaction_to_add
              state := { starknet1.state with pending_state := state_before_txn } }
          (starknet2, Except.ok (transaction_hash, address))

/-- Admission pipeline for invoke v1 transactions
(`add_invoke_transaction.rs`): zero-fee precheck, compile, hash, snapshot
`pending_state`, execute with the initial gas constant; on success hand
off to `handle_successful_transaction`, on execution error index the
transaction as rejected and restore `pending_state`; either way return
`Ok` with the hash. -/
def add_invoke_transcation_v1 {P I : Type}
    (execute : SirInvokeFunction → P → BlockContext → Nat →
      P × Except TransactionError I)
    (starknet : Starknet P I)
    (broadcasted_invoke_transaction : BroadcastedInvokeTransactionV1) :
    Starknet P I × DevnetResult TransactionHash :=
  if broadcasted_invoke_transaction.common.max_fee.val = 0 then
    (starknet, Except.error (Error.TransactionError (TransactionError.FeeError
      "For invoke transaction, max fee cannot be 0")))
  else
    match broadcasted_invoke_transaction.create_sir_invoke_function
        starknet.config.chain_id.to_felt with
    | Except.error e => (starknet, Except.error e)
    | Except.ok sir_invoke_function =>
      let transaction_hash := sir_invoke_function.hash_value
      let invoke_transaction :=
        broadcasted_invoke_transaction.create_invoke_transaction transaction_hash
      let transaction_with_type : TransactionWithType :=
        { type := TransactionType.Invoke
          transaction := Transaction.Invoke
            (InvokeTransaction.Version1 invoke_transaction) }
      let state_before_txn := starknet.state.pending_state
      let execResult := execute sir_invoke_function starknet.state.pending_state
        starknet.block_context INITIAL_GAS_COST
      let starknet1 :=
        { starknet with state := { starknet.state with pending_state := execResult.1 } }
      match execResult.2 with
      | Except.ok tx_info =>
        match starknet1.handle_successful_transaction transaction_hash
            transaction_with_type tx_info with
        | Except.ok s2 => (s2, Except.ok transaction_hash)
        | Except.error e => (starknet1, Except.error e)
      | Except.error tx_err =>
        let transaction_to_add :=
          StarknetTransaction.create_rejected transaction_with_type tx_err
        let starknet2 :=
          { starknet1 with
            transactions := starknet1.transactions.insert transaction_hash
              transaction_to_add
            state := { starknet1.state with pending_state := state_before_txn } }
        (starknet2, Except.ok transaction_hash)

/-! ## Class queries (`get_class_impls.rs`).  The block-id-to-state-reader
resolution (`get_state_reader_at_mut`, defined outside the source tree)
takes `&mut Starknet` and may materialise a historical state, so it is
passed in as a function from the engine to a reader paired with the
(possibly mutated) engine. -/

/-- Block identifier (`starknet_rs_core::types::BlockId`). -/
inductive BlockId
  | Hash (hash : BlockHash)
  | Number (number : Nat)
  | Latest
  | Pending
  deriving Repr, DecidableEq

/-- Compiled contract class of the executor
(`starknet_in_rust::...::CompiledClass`): a Cairo-1 casm class or a
deprecated Cairo-0 class, opaque to the engine. -/
inductive CompiledClass
  | Casm (program : List Felt)
  | Deprecated (program : List Felt)
  deriving Repr, DecidableEq

/-- State reader surface used by the class queries
(`starknet_in_rust::state::state_api::StateReader`): per-address class
hash and per-class compiled class, each fallible with a state error. -/
structure StateReader where
  get_class_hash_at : ContractAddress → Except StateError ClassHash
  get_contract_class : ClassHash → Except StateError CompiledClass

/-- Resolution of a block id to a state reader over the engine
(`Starknet::get_state_reader_at_mut`), abstract here. -/
def ReaderAt (P I : Type) :=
  Starknet P I → BlockId → Except Error (StateReader × Starknet P I)

/-- Class hash lookup at a block (`get_class_hash_at_impl`): resolve the
reader, then read the class hash, wrapping state errors. -/
def get_class_hash_at_impl {P I : Type} (reader_at : ReaderAt P I)
    (starknet : Starknet P I) (block_id : BlockId)
    (contract_address : ContractAddress) :
    Except Error (ClassHash × Starknet P I) :=
  match reader_at starknet block_id with
  | Except.error e => Except.error e
  | Except.ok (state_reader, starknet1) =>
    match state_reader.get_class_hash_at contract_address with
    | Except.error e => Except.error (Error.StateError e)
    | Except.ok class_hash => Except.ok (class_hash, starknet1)

/-- Class lookup at a block (`get_class_impl`): resolve the reader, then
read the compiled class, wrapping state errors. -/
def get_class_impl {P I : Type} (reader_at : ReaderAt P I)
    (starknet : Starknet P I) (block_id : BlockId) (class_hash : ClassHash) :
    Except Error (CompiledClass × Starknet P I) :=
  match reader_at starknet block_id with
  | Except.error e => Except.error e
  | Except.ok (state_reader, starknet1) =>
    match state_reader.get_contract_class class_hash with
    | Except.error e => Except.error (Error.StateError e)
    | Except.ok compiled_class => Except.ok (compiled_class, starknet1)

/-- Class-at-address lookup (`get_class_at_impl`): first obtain the class
hash at the address, propagating failure, then look the class up at the
same block id on the possibly mutated engine. -/
def get_class_at_impl {P I : Type} (reader_at : ReaderAt P I)
    (starknet : Starknet P I) (block_id : BlockId)
    (contract_address : ContractAddress) :
    Except Error (CompiledClass × Starknet P I) :=
  match get_class_hash_at_impl reader_at starknet block_id contract_address with
  | Except.error e => Except.error e
  | Except.ok (class_hash, starknet1) =>
    get_class_impl reader_at starknet1 block_id class_hash

/-! ## HTTP account endpoints
(`crates/starknet-server/src/api/http/endpoints/accounts.rs`). -/

/-- HTTP API error (`HttpApiError`); the stubbed balance endpoint returns
the `GeneralError` variant. -/
inductive HttpApiError
  | GeneralError
  deriving Repr, DecidableEq

/-- HTTP API result type (`HttpApiResult`). -/
abbrev HttpApiResult (α : Type) := Except HttpApiError α

/-- Account balance payload (`Balance`), opaque to the stubbed handler. -/
structure Balance where
  amount : Nat
  deriving Repr, DecidableEq

/-- Stubbed balance endpoint (`get_account_balance`): ignores the queried
contract address and unconditionally returns `GeneralError` without
touching any state. -/
def get_account_balance (_contract_address : ContractAddress) :
    HttpApiResult Balance :=
  Except.error HttpApiError.GeneralError

/-! ## Concrete fixtures.  Executable instances used to witness the
universally quantified properties below; values mirror the unit tests in
`add_deploy_account_transaction.rs` / `add_invoke_transaction.rs`. -/

/-- Fixture block context with gas price 1, as in the pipeline tests. -/
def testBlockContext : BlockContext :=
  { block_number := 0
    block_timestamp := 0
    sequencer_address := 0
    gas_price := 1
    fee_token_address := 0
    chain_id := ChainId.TestNet.to_felt }

/-- Fixture layered state with every class hash declared. -/
def testWrappedState : StarknetWrappedState Nat :=
  { state := 0, pending_state := 5, is_contract_declared := fun _ => true }

/-- Fixture engine with pending state `5` and an empty transaction index. -/
def testStarknet : Starknet Nat Unit :=
  { state := testWrappedState
    transactions := []
    config := { chain_id := ChainId.TestNet }
    block_context := testBlockContext
    pending_block := { transaction_hashes := [] } }

/-- Fixture engine in which no class hash is declared. -/
def testStarknetUndeclared : Starknet Nat Unit :=
  { testStarknet with
    state := { testWrappedState with is_contract_declared := fun _ => false } }

/-- Fixture deploy-account executor that mutates the pending state and
fails, mirroring the low-balance rejection test. -/
def failingDeployExecutor :
    SirDeployAccountTransaction → Nat → BlockContext →
      Nat × Except TransactionError Unit :=
  fun _ p _ => (p + 1, Except.error (TransactionError.ExecutionFailure "low balance"))

/-- Fixture invoke executor that mutates the pending state and fails. -/
def failingInvokeExecutor :
    SirInvokeFunction → Nat → BlockContext → Nat →
      Nat × Except TransactionError Unit :=
  fun _ p _ _ => (p + 1, Except.error (TransactionError.ExecutionFailure "low balance"))

/-- Fixture broadcast deploy-account body with `max_fee = 2000`. -/
def testDeployTx : BroadcastedDeployAccountTransaction :=
  { common := { max_fee := ⟨2000⟩, version := 1, signature := [], nonce := 0 }
    contract_address_salt := 13
    constructor_calldata := []
    class_hash := 42 }

/-- Fixture broadcast deploy-account body with `max_fee = 0`. -/
def testDeployTxZeroFee : BroadcastedDeployAccountTransaction :=
  { testDeployTx with
    common := { testDeployTx.common with max_fee := ⟨0⟩ } }

/-- Fixture broadcast invoke body with `max_fee = 10000`. -/
def testInvokeTx : BroadcastedInvokeTransactionV1 :=
  { common := { max_fee := ⟨10000⟩, version := 1, signature := [], nonce := 0 }
    sender_address := 3
    calldata := [1, 2, 3] }

/-- Fixture broadcast invoke body with `max_fee = 0`. -/
def testInvokeTxZeroFee : BroadcastedInvokeTransactionV1 :=
  { testInvokeTx with
    common := { testInvokeTx.common with max_fee := ⟨0⟩ } }

/-- Compiled executor form of `testDeployTx` under the TestNet chain id. -/
def testDeploySir : SirDeployAccountTransaction :=
  { class_hash := 42
    contract_address_salt := 13
    constructor_calldata := []
    max_fee := 2000
    version := 1
    signature := []
    nonce := 0
    chain_id := ChainId.TestNet.to_felt }

/-- Compiled executor form of `testInvokeTx` under the TestNet chain id. -/
def testInvokeSir : SirInvokeFunction :=
  { contract_address := 3
    calldata := [1, 2, 3]
    max_fee := 10000
    version := 1
    signature := []
    nonce := 0
    chain_id := ChainId.TestNet.to_felt }

/-! ## Theorems -/

/-- C3: a broadcast invoke or deploy-account transaction with zero
`max_fee` is refused with the `FeeError` pipeline error before hashing and
before any mutation: the engine object is returned unchanged (no state
touched, nothing indexed) and the error is surfaced to the caller. -/
theorem zero_max_fee_fails_before_any_mutation :
    (∀ (P I : Type)
      (execute : SirDeployAccountTransaction → P → BlockContext →
        P × Except TransactionError I)
      (starknet : Starknet P I) (tx : BroadcastedDeployAccountTransaction),
      tx.common.max_fee.val = 0 →
      add_deploy_account_transaction execute starknet tx =
        (starknet, Except.error (Error.TransactionError (TransactionError.FeeError
          "For deploy account transaction, max fee cannot be 0")))) ∧
    (∀ (P I : Type)
      (execute : SirInvokeFunction → P → BlockContext → Nat →
        P × Except TransactionError I)
      (starknet : Starknet P I) (tx : BroadcastedInvokeTransactionV1),
      tx.common.max_fee.val = 0 →
      add_invoke_transcation_v1 execute starknet tx =
        (starknet, Except.error (Error.TransactionError (TransactionError.FeeError
          "For invoke transaction, max fee cannot be 0")))) := by
  constructor
  · intro P I execute starknet tx hfee
    simp [add_deploy_account_transaction, hfee]
  · intro P I execute starknet tx hfee
    simp [add_invoke_transcation_v1, hfee]

/-- C3 witness: instantiation at the zero-fee fixtures. -/
theorem zero_max_fee_fails_before_any_mutation_witness :
    testDeployTxZeroFee.common.max_fee.val = 0 ∧
    testInvokeTxZeroFee.common.max_fee.val = 0 ∧
    add_deploy_account_transaction failingDeployExecutor testStarknet
        testDeployTxZeroFee =
      (testStarknet, Except.error (Error.TransactionError (TransactionError.FeeError
        "For deploy account transaction, max fee cannot be 0"))) ∧
    add_invoke_transcation_v1 failingInvokeExecutor testStarknet
        testInvokeTxZeroFee =
      (testStarknet, Except.error (Error.TransactionError (TransactionError.FeeError
        "For invoke transaction, max fee cannot be 0"))) :=
  ⟨rfl, rfl,
    zero_max_fee_fails_before_any_mutation.1 Nat Unit failingDeployExecutor
      testStarknet testDeployTxZeroFee rfl,
    zero_max_fee_fails_before_any_mutation.2 Nat Unit failingInvokeExecutor
      testStarknet testInvokeTxZeroFee rfl⟩

/-- C4 (amended): a deploy-account transaction with nonzero `max_fee`
whose class hash is not declared fails with the `MissingClassHash` state
error before hashing or executing, leaving the engine (state and
transaction index) unchanged. -/
theorem undeclared_class_fails_deploy_account :
    ∀ (P I : Type)
      (execute : SirDeployAccountTransaction → P → BlockContext →
        P × Except TransactionError I)
      (starknet : Starknet P I) (tx : BroadcastedDeployAccountTransaction),
      tx.common.max_fee.val ≠ 0 →
      starknet.state.is_contract_declared tx.class_hash = false →
      add_deploy_account_transaction execute starknet tx =
        (starknet, Except.error (Error.StateError StateError.MissingClassHash)) := by
  intro P I execute starknet tx hfee hdecl
  simp [add_deploy_account_transaction, hfee, hdecl]

/-- C4 witness: instantiation at the undeclared-class fixture with
`max_fee = 2000`. -/
theorem undeclared_class_fails_deploy_account_witness :
    testDeployTx.common.max_fee.val ≠ 0 ∧
    testStarknetUndeclared.state.is_contract_declared testDeployTx.class_hash
      = false ∧
    add_deploy_account_transaction failingDeployExecutor testStarknetUndeclared
        testDeployTx =
      (testStarknetUndeclared,
        Except.error (Error.StateError StateError.MissingClassHash)) :=
  ⟨by decide, rfl,
    undeclared_class_fails_deploy_account Nat Unit failingDeployExecutor
      testStarknetUndeclared testDeployTx (by decide) rfl⟩

/-- C4 counterexample: a deploy-account transaction whose class hash is
undeclared but whose `max_fee` is zero does not fail with
`MissingClassHash`; the zero-fee precheck runs first and the call fails
with the `FeeError` instead, refuting the claim as stated. -/
theorem undeclared_class_zero_fee_gives_fee_error :
    testStarknetUndeclared.state.is_contract_declared
      testDeployTxZeroFee.class_hash = false ∧
    (add_deploy_account_transaction failingDeployExecutor testStarknetUndeclared
        testDeployTxZeroFee).2 =
      Except.error (Error.TransactionError (TransactionError.FeeError
        "For deploy account transaction, max fee cannot be 0")) ∧
    (add_deploy_account_transaction failingDeployExecutor testStarknetUndeclared
        testDeployTxZeroFee).2 ≠
      Except.error (Error.StateError StateError.MissingClassHash) := by
  refine ⟨rfl, rfl, ?_⟩
  intro h
  simp [add_deploy_account_transaction, testDeployTxZeroFee, testDeployTx] at h

/-- C1: atomicity of rejection.  For a deploy-account or invoke
transaction that reaches execution (fee nonzero, class declared for
deploy-account, compilation and address conversion succeed) and whose
execution by the executor returns an error, the pending state after the
`add_*` call equals the pending state recorded immediately before
execution — which is the pending state at entry, since the prechecks and
hashing do not touch state. -/
theorem rejected_transaction_leaves_pending_unchanged :
    (∀ (P I : Type)
      (execute : SirDeployAccountTransaction → P → BlockContext →
        P × Except TransactionError I)
      (starknet : Starknet P I) (tx : BroadcastedDeployAccountTransaction)
      (sir : SirDeployAccountTransaction) (address : ContractAddress)
      (p : P) (err : TransactionError),
      tx.common.max_fee.val ≠ 0 →
      starknet.state.is_contract_declared tx.class_hash = true →
      tx.compile_sir_deploy_account starknet.config.chain_id.to_felt
        = Except.ok sir →
      contractAddressTryFrom sir.contract_address = Except.ok address →
      execute sir starknet.state.pending_state starknet.block_context
        = (p, Except.error err) →
      ((add_deploy_account_transaction execute starknet tx).1).state.pending_state
        = starknet.state.pending_state) ∧
    (∀ (P I : Type)
      (execute : SirInvokeFunction → P → BlockContext → Nat →
        P × Except TransactionError I)
      (starknet : Starknet P I) (tx : BroadcastedInvokeTransactionV1)
      (sir : SirInvokeFunction) (p : P) (err : TransactionError),
      tx.common.max_fee.val ≠ 0 →
      tx.create_sir_invoke_function starknet.config.chain_id.to_felt
        = Except.ok sir →
      execute sir starknet.state.pending_state starknet.block_context
          INITIAL_GAS_COST = (p, Except.error err) →
      ((add_invoke_transcation_v1 execute starknet tx).1).state.pending_state
        = starknet.state.pending_state) := by
  constructor
  · intro P I execute starknet tx sir address p err hfee hdecl hcompile htry hexec
    obtain ⟨rfl⟩ : sir = _ := by
      simpa [BroadcastedDeployAccountTransaction.compile_sir_deploy_account]
        using hcompile.symm
    simp [add_deploy_account_transaction, hfee, hdecl, htry, hexec,
      BroadcastedDeployAccountTransaction.compile_sir_deploy_account]
  · intro P I execute starknet tx sir p err hfee hcompile hexec
    obtain ⟨rfl⟩ : sir = _ := by
      simpa [BroadcastedInvokeTransactionV1.create_sir_invoke_function]
        using hcompile.symm
    simp [add_invoke_transcation_v1, hfee, hexec,
      BroadcastedInvokeTransactionV1.create_sir_invoke_function]

/-- C1 witness: instantiation at the failing-executor fixtures; the
pending state (`5`) is restored even though the executor moved it to `6`. -/
theorem rejected_transaction_leaves_pending_unchanged_witness :
    testDeployTx.common.max_fee.val ≠ 0 ∧
    testStarknet.state.is_contract_declared testDeployTx.class_hash = true ∧
    testDeployTx.compile_sir_deploy_account testStarknet.config.chain_id.to_felt
      = Except.ok testDeploySir ∧
    contractAddressTryFrom testDeploySir.contract_address
      = Except.ok testDeploySir.contract_address ∧
    failingDeployExecutor testDeploySir testStarknet.state.pending_state
        testStarknet.block_context
      = (6, Except.error (TransactionError.ExecutionFailure "low balance")) ∧
    ((add_deploy_account_transaction failingDeployExecutor testStarknet
        testDeployTx).1).state.pending_state
      = testStarknet.state.pending_state ∧
    ((add_invoke_transcation_v1 failingInvokeExecutor testStarknet
        testInvokeTx).1).state.pending_state
      = testStarknet.state.pending_state :=
  ⟨by decide, rfl, rfl, rfl, rfl,
    rejected_transaction_leaves_pending_unchanged.1 Nat Unit
      failingDeployExecutor testStarknet testDeployTx testDeploySir
      testDeploySir.contract_address 6
      (TransactionError.ExecutionFailure "low balance")
      (by decide) rfl rfl rfl rfl,
    rejected_transaction_leaves_pending_unchanged.2 Nat Unit
      failingInvokeExecutor testStarknet testInvokeTx testInvokeSir 6
      (TransactionError.ExecutionFailure "low balance")
      (by decide) rfl rfl⟩

/-- C2: admission of an execution-rejected transaction.  If the prechecks
pass and execution fails, the pipeline still returns `Ok` with the
transaction hash (and the derived contract address for deploy-account);
the transaction is appended to the transaction index as a rejected entry
carrying the execution error (`StarknetTransaction.create_rejected`, whose
status is `Rejected` and whose `execution_error` holds the error), and the
pending block's transaction list is untouched. -/
theorem rejected_transaction_indexed_and_ok :
    (∀ (P I : Type)
      (execute : SirDeployAccountTransaction → P → BlockContext →
        P × Except TransactionError I)
      (starknet : Starknet P I) (tx : BroadcastedDeployAccountTransaction)
      (sir : SirDeployAccountTransaction) (address : ContractAddress)
      (p : P) (err : TransactionError),
      tx.common.max_fee.val ≠ 0 →
      starknet.state.is_contract_declared tx.class_hash = true →
      tx.compile_sir_deploy_account starknet.config.chain_id.to_felt
        = Except.ok sir →
      contractAddressTryFrom sir.contract_address = Except.ok address →
      execute sir starknet.state.pending_state starknet.block_context
        = (p, Except.error err) →
      (add_deploy_account_transaction execute starknet tx).2
          = Except.ok (sir.hash_value, address) ∧
        ((add_deploy_account_transaction execute starknet tx).1).transactions
          = starknet.transactions.insert sir.hash_value
              (StarknetTransaction.create_rejected
                { type := TransactionType.DeployAccount
                  transaction := Transaction.DeployAccount
                    (tx.compile_deploy_account_transaction sir.hash_value) } err) ∧
        (StarknetTransaction.create_rejected (I := I)
          { type := TransactionType.DeployAccount
            transaction := Transaction.DeployAccount
              (tx.compile_deploy_account_transaction sir.hash_value) } err).status
          = TransactionStatus.Rejected ∧
        (StarknetTransaction.create_rejected (I := I)
          { type := TransactionType.DeployAccount
            transaction := Transaction.DeployAccount
              (tx.compile_deploy_account_transaction sir.hash_value) }
          err).execution_error = some err ∧
        ((add_deploy_account_transaction execute starknet tx).1).pending_block
          = starknet.pending_block) ∧
    (∀ (P I : Type)
      (execute : SirInvokeFunction → P → BlockContext → Nat →
        P × Except TransactionError I)
      (starknet : Starknet P I) (tx : BroadcastedInvokeTransactionV1)
      (sir : SirInvokeFunction) (p : P) (err : TransactionError),
      tx.common.max_fee.val ≠ 0 →
      tx.create_sir_invoke_function starknet.config.chain_id.to_felt
        = Except.ok sir →
      execute sir starknet.state.pending_state starknet.block_context
          INITIAL_GAS_COST = (p, Except.error err) →
      (add_invoke_transcation_v1 execute starknet tx).2
          = Except.ok sir.hash_value ∧
        ((add_invoke_transcation_v1 execute starknet tx).1).transactions
          = starknet.transactions.insert sir.hash_value
              (StarknetTransaction.create_rejected
                { type := TransactionType.Invoke
                  transaction := Transaction.Invoke (InvokeTransaction.Version1
                    (tx.create_invoke_transaction sir.hash_value)) } err) ∧
        ((add_invoke_transcation_v1 execute starknet tx).1).pending_block
          = starknet.pending_block) := by
  constructor
  · intro P I execute starknet tx sir address p err hfee hdecl hcompile htry hexec
    obtain ⟨rfl⟩ : sir = _ := by
      simpa [BroadcastedDeployAccountTransaction.compile_sir_deploy_account]
        using hcompile.symm
    refine ⟨?_, ?_, rfl, rfl, ?_⟩ <;>
      simp [add_deploy_account_transaction, hfee, hdecl, htry, hexec,
        BroadcastedDeployAccountTransaction.compile_sir_deploy_account]
  · intro P I execute starknet tx sir p err hfee hcompile hexec
    obtain ⟨rfl⟩ : sir = _ := by
      simpa [BroadcastedInvokeTransactionV1.create_sir_invoke_function]
        using hcompile.symm
    refine ⟨?_, ?_, ?_⟩ <;>
      simp [add_invoke_transcation_v1, hfee, hexec,
        BroadcastedInvokeTransactionV1.create_sir_invoke_function]

/-- C2 witness: instantiation at the failing-executor fixtures; the
deploy-account conjunct is applied at the concrete engine with pending
state `5`, whose executor rejects with a low-balance error. -/
theorem rejected_transaction_indexed_and_ok_witness :
    testDeployTx.common.max_fee.val ≠ 0 ∧
    testStarknet.state.is_contract_declared testDeployTx.class_hash = true ∧
    testDeployTx.compile_sir_deploy_account testStarknet.config.chain_id.to_felt
      = Except.ok testDeploySir ∧
    contractAddressTryFrom testDeploySir.contract_address
      = Except.ok testDeploySir.contract_address ∧
    failingDeployExecutor testDeploySir testStarknet.state.pending_state
        testStarknet.block_context
      = (6, Except.error (TransactionError.ExecutionFailure "low balance")) ∧
    ((add_deploy_account_transaction failingDeployExecutor testStarknet
          testDeployTx).2
        = Except.ok (testDeploySir.hash_value, testDeploySir.contract_address) ∧
      ((add_deploy_account_transaction failingDeployExecutor testStarknet
          testDeployTx).1).transactions
        = testStarknet.transactions.insert testDeploySir.hash_value
            (StarknetTransaction.create_rejected
              { type := TransactionType.DeployAccount
                transaction := Transaction.DeployAccount
                  (testDeployTx.compile_deploy_account_transaction
                    testDeploySir.hash_value) }
              (TransactionError.ExecutionFailure "low balance")) ∧
      (StarknetTransaction.create_rejected (I := Unit)
        { type := TransactionType.DeployAccount
          transaction := Transaction.DeployAccount
            (testDeployTx.compile_deploy_account_transaction
              testDeploySir.hash_value) }
        (TransactionError.ExecutionFailure "low balance")).status
        = TransactionStatus.Rejected ∧
      (StarknetTransaction.create_rejected (I := Unit)
        { type := TransactionType.DeployAccount
          transaction := Transaction.DeployAccount
            (testDeployTx.compile_deploy_account_transaction
              testDeploySir.hash_value) }
        (TransactionError.ExecutionFailure "low balance")).execution_error
        = some (TransactionError.ExecutionFailure "low balance") ∧
      ((add_deploy_account_transaction failingDeployExecutor testStarknet
          testDeployTx).1).pending_block
        = testStarknet.pending_block) :=
  ⟨by decide, rfl, rfl, rfl, rfl,
    rejected_transaction_indexed_and_ok.1 Nat Unit failingDeployExecutor
      testStarknet testDeployTx testDeploySir testDeploySir.contract_address 6
      (TransactionError.ExecutionFailure "low balance")
      (by decide) rfl rfl rfl rfl⟩

/-- C5: `get_class_at_impl` is exactly the error-monad composition of
`get_class_hash_at_impl` with `get_class_impl` at the same block id: a
failure of the class-hash lookup is propagated unchanged, and otherwise
`get_class_impl` is run on the obtained class hash (and the possibly
mutated engine). -/
theorem get_class_at_is_composition :
    ∀ (P I : Type) (reader_at : ReaderAt P I) (starknet : Starknet P I)
      (block_id : BlockId) (contract_address : ContractAddress),
      get_class_at_impl reader_at starknet block_id contract_address
        = (get_class_hash_at_impl reader_at starknet block_id
            contract_address).bind
            (fun r => get_class_impl reader_at r.2 block_id r.1) := by
  intro P I reader_at starknet block_id contract_address
  unfold get_class_at_impl
  cases h : get_class_hash_at_impl reader_at starknet block_id contract_address with
  | error e => rfl
  | ok r => cases r; rfl

/-- C8: the `get_account_balance` HTTP endpoint is an unconditional error:
for every queried contract address it returns `GeneralError` and never an
`Ok` balance. -/
theorem get_account_balance_always_errors :
    ∀ (contract_address : ContractAddress),
      get_account_balance contract_address
          = Except.error HttpApiError.GeneralError ∧
        ∀ (balance : Balance),
          get_account_balance contract_address ≠ Except.ok balance := by
  intro contract_address
  exact ⟨rfl, fun balance h => by simp [get_account_balance] at h⟩

/-- C9: the common receipt built by
`TransactionWithType.create_common_receipt` reports `actual_fee` equal to
the transaction's declared `max_fee` accessor value (not any executed
fee), an empty `messages_sent` list, and exactly the events passed in. -/
theorem create_common_receipt_output_fields :
    ∀ (twt : TransactionWithType) (transaction_events : List Event)
      (block_hash : BlockHash) (block_number : Nat),
      (twt.create_common_receipt transaction_events block_hash
          block_number).output.actual_fee = twt.max_fee' ∧
      (twt.create_common_receipt transaction_events block_hash
          block_number).output.messages_sent = [] ∧
      (twt.create_common_receipt transaction_events block_hash
          block_number).output.events = transaction_events := by
  intro twt transaction_events block_hash block_number
  exact ⟨rfl, rfl, rfl⟩

/-- C10: the `max_fee` accessors of the L1 handler and legacy deploy
variants are the constant `Fee(0)` whatever the transaction's fields, both
directly and through the `Transaction::max_fee` dispatch. -/
theorem l1_handler_and_deploy_max_fee_zero :
    (∀ (tx : L1HandlerTransaction),
      tx.max_fee' = Fee.mk 0 ∧
        (Transaction.L1Handler tx).max_fee' = Fee.mk 0) ∧
    (∀ (tx : DeployTransaction),
      tx.max_fee' = Fee.mk 0 ∧
        (Transaction.Deploy tx).max_fee' = Fee.mk 0) :=
  ⟨fun _ => ⟨rfl, rfl⟩, fun _ => ⟨rfl, rfl⟩⟩

/-- C7: the fixed on-chain constants match the protocol values listed in
the specification bit-exactly.  Every constant is a 63-hex-digit felt; its
leading four hex digits (the value divided by `16 ^ 59`) and its trailing
four or five hex digits (the value modulo `16 ^ 4` or `16 ^ 5`) equal the
digits the specification quotes. -/
theorem fixed_constants_match_spec :
    hexToNat ERC20_CONTRACT_ADDRESS / 16 ^ 59 = 0x49D3 ∧
    hexToNat ERC20_CONTRACT_ADDRESS % 16 ^ 5 = 0x04DC7 ∧
    hexToNat ERC20_CONTRACT_CLASS_HASH / 16 ^ 59 = 0x6A22 ∧
    hexToNat ERC20_CONTRACT_CLASS_HASH % 16 ^ 4 = 0x0EAF ∧
    hexToNat UDC_CONTRACT_ADDRESS / 16 ^ 59 = 0x41A7 ∧
    hexToNat UDC_CONTRACT_ADDRESS % 16 ^ 4 = 0x02BF ∧
    hexToNat UDC_CONTRACT_CLASS_HASH / 16 ^ 59 = 0x7B3E ∧
    hexToNat UDC_CONTRACT_CLASS_HASH % 16 ^ 4 = 0x7A69 ∧
    hexToNat CAIRO_0_ACCOUNT_CONTRACT_HASH / 16 ^ 59 = 0x4D07 ∧
    hexToNat CAIRO_0_ACCOUNT_CONTRACT_HASH % 16 ^ 4 = 0xBC5F ∧
    hexToNat CAIRO_1_ACCOUNT_CONTRACT_HASH / 16 ^ 59 = 0x2B51 ∧
    hexToNat CAIRO_1_ACCOUNT_CONTRACT_HASH % 16 ^ 4 = 0xCF8A ∧
    hexToNat CHARGEABLE_ACCOUNT_PUBLIC_KEY / 16 ^ 59 = 0x4C37 ∧
    hexToNat CHARGEABLE_ACCOUNT_PUBLIC_KEY % 16 ^ 5 = 0x942A4 ∧
    hexToNat CHARGEABLE_ACCOUNT_ADDRESS / 16 ^ 59 = 0x1CAF ∧
    hexToNat CHARGEABLE_ACCOUNT_ADDRESS % 16 ^ 5 = 0x4C511 := by
  refine ⟨?_, ?_, ?_, ?_, ?_, ?_, ?_, ?_, ?_, ?_, ?_, ?_, ?_, ?_, ?_, ?_⟩ <;>
    decide

/-- Helper: the felt-list encoding is injective. -/
theorem encodeFeltList_injective : Function.Injective encodeFeltList := by
  intro xs
  induction xs with
  | nil =>
    intro ys h
    cases ys with
    | nil => rfl
    | cons y ys => simp [encodeFeltList] at h
  | cons x xs ih =>
    intro ys h
    cases ys with
    | nil => simp [encodeFeltList] at h
    | cons y ys =>
      simp only [encodeFeltList, Nat.add_right_cancel_iff, Nat.pair_eq_pair] at h
      rw [h.1, ih h.2]

/-- Helper: the modelled invoke hash determines the compiled transaction. -/
theorem sirInvokeFunction_hash_value_injective :
    Function.Injective SirInvokeFunction.hash_value := by
  intro s₁ s₂ h
  obtain ⟨a₁, c₁, m₁, v₁, g₁, n₁, ch₁⟩ := s₁
  obtain ⟨a₂, c₂, m₂, v₂, g₂, n₂, ch₂⟩ := s₂
  simp only [SirInvokeFunction.hash_value, Nat.pair_eq_pair] at h
  obtain ⟨-, hch, hv, ha, hn, hm, hsig, hcal⟩ := h
  simp only [SirInvokeFunction.mk.injEq]
  exact ⟨ha, encodeFeltList_injective hcal, hm, hv,
    encodeFeltList_injective hsig, hn, hch⟩

/-- Helper: the modelled deploy-account hash determines the compiled
transaction. -/
theorem sirDeployAccount_hash_value_injective :
    Function.Injective SirDeployAccountTransaction.hash_value := by
  intro s₁ s₂ h
  obtain ⟨k₁, t₁, c₁, m₁, v₁, g₁, n₁, ch₁⟩ := s₁
  obtain ⟨k₂, t₂, c₂, m₂, v₂, g₂, n₂, ch₂⟩ := s₂
  simp only [SirDeployAccountTransaction.hash_value, Nat.pair_eq_pair] at h
  obtain ⟨-, hch, hv, hk, ht, hn, hm, hsig, hcal⟩ := h
  simp only [SirDeployAccountTransaction.mk.injEq]
  exact ⟨hk, ht, encodeFeltList_injective hcal, hm, hv,
    encodeFeltList_injective hsig, hn, hch⟩

/-- Helper: an `Ok` result of the invoke pipeline carries exactly the hash
of the compiled transaction (a pure function of the broadcast body and the
chain id). -/
theorem add_invoke_ok_hash {P I : Type}
    (execute : SirInvokeFunction → P → BlockContext → Nat →
      P × Except TransactionError I)
    (starknet : Starknet P I) (tx : BroadcastedInvokeTransactionV1)
    (h : TransactionHash)
    (hok : (add_invoke_transcation_v1 execute starknet tx).2 = Except.ok h) :
    ∃ sir, tx.create_sir_invoke_function starknet.config.chain_id.to_felt
        = Except.ok sir ∧ h = sir.hash_value := by
  by_cases hfee : tx.common.max_fee.val = 0
  · simp [add_invoke_transcation_v1, hfee] at hok
  · refine ⟨_, rfl, ?_⟩
    simp only [add_invoke_transcation_v1, hfee, if_false,
      BroadcastedInvokeTransactionV1.create_sir_invoke_function] at hok
    rcases hE : (execute
        { contract_address := tx.sender_address
          calldata := tx.calldata
          max_fee := tx.common.max_fee.val
          version := tx.common.version
          signature := tx.common.signature
          nonce := tx.common.nonce
          chain_id := starknet.config.chain_id.to_felt }
        starknet.state.pending_state starknet.block_context
        INITIAL_GAS_COST).2 with e | i <;>
      simp [hE, Starknet.handle_successful_transaction] at hok <;>
      exact hok.symm

/-- Helper: an `Ok` result of the deploy-account pipeline carries exactly
the hash and derived address of the compiled transaction. -/
theorem add_deploy_account_ok_hash {P I : Type}
    (execute : SirDeployAccountTransaction → P → BlockContext →
      P × Except TransactionError I)
    (starknet : Starknet P I) (tx : BroadcastedDeployAccountTransaction)
    (h : TransactionHash) (a : ContractAddress)
    (hok : (add_deploy_account_transaction execute starknet tx).2
      = Except.ok (h, a)) :
    ∃ sir, tx.compile_sir_deploy_account starknet.config.chain_id.to_felt
        = Except.ok sir ∧ h = sir.hash_value ∧ a = sir.contract_address := by
  by_cases hfee : tx.common.max_fee.val = 0
  · simp [add_deploy_account_transaction, hfee] at hok
  · by_cases hdecl : starknet.state.is_contract_declared tx.class_hash = true
    · refine ⟨_, rfl, ?_⟩
      simp only [add_deploy_account_transaction, hfee, if_false, hdecl,
        BroadcastedDeployAccountTransaction.compile_sir_deploy_account] at hok
      by_cases haddr :
          ({ class_hash := tx.class_hash
             contract_address_salt := tx.contract_address_salt
             constructor_calldata := tx.constructor_calldata
             max_fee := tx.common.max_fee.val
             version := tx.common.version
             signature := tx.common.signature
             nonce := tx.common.nonce
             chain_id := starknet.config.chain_id.to_felt } :
            SirDeployAccountTransaction).contract_address < ADDR_BOUND
      · rcases hE : (execute
            { class_hash := tx.class_hash
              contract_address_salt := tx.contract_address_salt
              constructor_calldata := tx.constructor_calldata
              max_fee := tx.common.max_fee.val
              version := tx.common.version
              signature := tx.common.signature
              nonce := tx.common.nonce
              chain_id := starknet.config.chain_id.to_felt }
            starknet.state.pending_state starknet.block_context).2 with e | i <;>
          simp [contractAddressTryFrom, haddr, hE,
            Starknet.handle_successful_transaction] at hok <;>
          exact ⟨hok.1.symm, hok.2.symm⟩
      · simp [contractAddressTryFrom, haddr] at hok
    · simp [add_deploy_account_transaction, hfee, hdecl] at hok

/-- C6: hash determinism and uniqueness.  Two runs of the admission
pipeline on the same broadcast body under the same chain id return the
same transaction hash whenever they return `Ok` (the hash is a pure
function of the compiled transaction and chain id); distinct broadcast
bodies compile to transactions with distinct hashes, and invoke and
deploy-account hashes never coincide, so the index insert never collides. -/
theorem transaction_hash_deterministic_and_unique :
    (∀ (P₁ I₁ P₂ I₂ : Type)
      (ex₁ : SirInvokeFunction → P₁ → BlockContext → Nat →
        P₁ × Except TransactionError I₁)
      (ex₂ : SirInvokeFunction → P₂ → BlockContext → Nat →
        P₂ × Except TransactionError I₂)
      (s₁ : Starknet P₁ I₁) (s₂ : Starknet P₂ I₂)
      (tx : BroadcastedInvokeTransactionV1) (h₁ h₂ : TransactionHash),
      s₁.config.chain_id = s₂.config.chain_id →
      (add_invoke_transcation_v1 ex₁ s₁ tx).2 = Except.ok h₁ →
      (add_invoke_transcation_v1 ex₂ s₂ tx).2 = Except.ok h₂ →
      h₁ = h₂) ∧
    (∀ (P₁ I₁ P₂ I₂ : Type)
      (ex₁ : SirDeployAccountTransaction → P₁ → BlockContext →
        P₁ × Except TransactionError I₁)
      (ex₂ : SirDeployAccountTransaction → P₂ → BlockContext →
        P₂ × Except TransactionError I₂)
      (s₁ : Starknet P₁ I₁) (s₂ : Starknet P₂ I₂)
      (tx : BroadcastedDeployAccountTransaction)
      (h₁ h₂ : TransactionHash) (a₁ a₂ : ContractAddress),
      s₁.config.chain_id = s₂.config.chain_id →
      (add_deploy_account_transaction ex₁ s₁ tx).2 = Except.ok (h₁, a₁) →
      (add_deploy_account_transaction ex₂ s₂ tx).2 = Except.ok (h₂, a₂) →
      h₁ = h₂ ∧ a₁ = a₂) ∧
    (∀ (chain : Felt) (t₁ t₂ : BroadcastedInvokeTransactionV1)
      (s₁ s₂ : SirInvokeFunction),
      t₁.create_sir_invoke_function chain = Except.ok s₁ →
      t₂.create_sir_invoke_function chain = Except.ok s₂ →
      s₁.hash_value = s₂.hash_value → t₁ = t₂) ∧
    (∀ (chain : Felt) (t₁ t₂ : BroadcastedDeployAccountTransaction)
      (s₁ s₂ : SirDeployAccountTransaction),
      t₁.compile_sir_deploy_account chain = Except.ok s₁ →
      t₂.compile_sir_deploy_account chain = Except.ok s₂ →
      s₁.hash_value = s₂.hash_value → t₁ = t₂) ∧
    (∀ (si : SirInvokeFunction) (sd : SirDeployAccountTransaction),
      si.hash_value ≠ sd.hash_value) := by
  refine ⟨?_, ?_, ?_, ?_, ?_⟩
  · intro P₁ I₁ P₂ I₂ ex₁ ex₂ s₁ s₂ tx h₁ h₂ hchain hok₁ hok₂
    obtain ⟨sir₁, hc₁, rfl⟩ := add_invoke_ok_hash ex₁ s₁ tx h₁ hok₁
    obtain ⟨sir₂, hc₂, rfl⟩ := add_invoke_ok_hash ex₂ s₂ tx h₂ hok₂
    rw [hchain] at hc₁
    rw [Except.ok.inj (hc₁.symm.trans hc₂)]
  · intro P₁ I₁ P₂ I₂ ex₁ ex₂ s₁ s₂ tx h₁ h₂ a₁ a₂ hchain hok₁ hok₂
    obtain ⟨sir₁, hc₁, rfl, rfl⟩ := add_deploy_account_ok_hash ex₁ s₁ tx h₁ a₁ hok₁
    obtain ⟨sir₂, hc₂, rfl, rfl⟩ := add_deploy_account_ok_hash ex₂ s₂ tx h₂ a₂ hok₂
    rw [hchain] at hc₁
    rw [Except.ok.inj (hc₁.symm.trans hc₂)]
    exact ⟨rfl, rfl⟩
  · intro chain t₁ t₂ s₁ s₂ hc₁ hc₂ hh
    obtain ⟨⟨⟨mf₁⟩, v₁, sg₁, n₁⟩, sa₁, cd₁⟩ := t₁
    obtain ⟨⟨⟨mf₂⟩, v₂, sg₂, n₂⟩, sa₂, cd₂⟩ := t₂
    simp only [BroadcastedInvokeTransactionV1.create_sir_invoke_function,
      Except.ok.injEq] at hc₁ hc₂
    rw [← hc₁, ← hc₂] at hh
    have := sirInvokeFunction_hash_value_injective hh
    simp only [SirInvokeFunction.mk.injEq] at this
    obtain ⟨ha, hcal, hm, hv, hsig, hn, -⟩ := this
    simp_all
  · intro chain t₁ t₂ s₁ s₂ hc₁ hc₂ hh
    obtain ⟨⟨⟨mf₁⟩, v₁, sg₁, n₁⟩, st₁, cc₁, kh₁⟩ := t₁
    obtain ⟨⟨⟨mf₂⟩, v₂, sg₂, n₂⟩, st₂, cc₂, kh₂⟩ := t₂
    simp only [BroadcastedDeployAccountTransaction.compile_sir_deploy_account,
      Except.ok.injEq] at hc₁ hc₂
    rw [← hc₁, ← hc₂] at hh
    have := sirDeployAccount_hash_value_injective hh
    simp only [SirDeployAccountTransaction.mk.injEq] at this
    obtain ⟨hk, ht, hcal, hm, hv, hsig, hn, -⟩ := this
    simp_all
  · intro si sd
    simp [SirInvokeFunction.hash_value, SirDeployAccountTransaction.hash_value,
      Nat.pair_eq_pair]

/-- C6 witness: two runs of the invoke pipeline at the fixture engine
(same TestNet chain id, failing executor) both return `Ok` with the hash
of the compiled fixture transaction, and the determinism conjunct equates
them. -/
theorem transaction_hash_deterministic_and_unique_witness :
    testStarknet.config.chain_id = testStarknet.config.chain_id ∧
    (add_invoke_transcation_v1 failingInvokeExecutor testStarknet
        testInvokeTx).2 = Except.ok testInvokeSir.hash_value ∧
    testInvokeSir.hash_value = testInvokeSir.hash_value :=
  ⟨rfl, rfl,
    transaction_hash_deterministic_and_unique.1 Nat Unit Nat Unit
      failingInvokeExecutor failingInvokeExecutor testStarknet testStarknet
      testInvokeTx testInvokeSir.hash_value testInvokeSir.hash_value
      rfl rfl rfl⟩
